import Mathlib

/-!
Verification of the HeyGen video-generation gateway
(`api/endpoints/heygen.py`, `services/s3_service.py`, `models/response.py`).

The Python code is shallowly embedded: the poll loop of
`wait_for_video_completion` becomes a fuel-indexed recursion over an
oracle `Nat → PollStep` giving the outcome of each poll attempt, the S3
side effects become outcome parameters, and the HTTP handler bodies
become pure functions from those outcomes to response values.
-/

/-- Outcome of one iteration of the poll loop in
`wait_for_video_completion` (heygen.py lines 122-160).  `exn` is any
exception raised inside the `try` block (transport failure of
`requests.get`, or a `ValueError` from `response.json()`); `resp` is a
parsed HTTP response carrying its status code, the provider status string
`data.get("status")` (`none` when the field or the `data` object is
missing) and `data.get("video_url")`. -/
inductive PollStep where
  | exn : PollStep
  | resp (statusCode : Nat) (status : Option String) (videoUrl : Option String) : PollStep
deriving DecidableEq

/-- Result of `wait_for_video_completion`: the returned pair
`(video_url, s3_url)` together with the observable cost of the run, the
number of poll attempts performed and the total time spent in
`asyncio.sleep` (which equals the final `wait_time`, since every sleep
lasts `check_interval = 10` seconds and bumps `wait_time` by 10). -/
structure WaitResult where
  video_url : Option String
  s3_url : Option String
  polls : Nat
  totalSleep : Nat
deriving DecidableEq

/-- The upload guard at heygen.py lines 140-145: `if video_url:` is
Python truthiness, so the upload is attempted only when the URL is
present and non-empty; `upload u vid` models
`s3_service.upload_video_from_url(u, vid)` wrapped in the surrounding
`try/except` (an exception leaves `s3_url = None`, so the model's
`Option String` result covers both the `None` return and the caught
exception). -/
def s3UploadIfPresent (upload : String → String → Option String) (vid : String) :
    Option String → Option String
  | none => none
  | some u => if u = "" then none else upload u vid

/-- The `while wait_time < max_wait_seconds` loop of
`wait_for_video_completion` (heygen.py lines 122-160), with the poll
outcomes supplied by `oracle`.  Each iteration performs one poll:
status code 200 with provider status exactly "completed" returns the
pair `(video_url, s3_url)` at once; status "failed" or "error" returns
`(None, None)`; any other status, a non-200 code, or an exception falls
through to `asyncio.sleep(10); wait_time += 10` and retries.  `fuel`
bounds the number of iterations; the caller passes `fuel = maxWait`,
which can never be exhausted while `wait_time < maxWait` still holds
because every iteration adds 10 to `wait_time`, so the fuel-exhausted
branch returns the same `(None, None)` value as the loop-exit path at
line 163. -/
def waitLoop (upload : String → String → Option String) (vid : String)
    (oracle : Nat → PollStep) (maxWait : Nat) : Nat → Nat → Nat → WaitResult
  | 0, waitTime, k => WaitResult.mk none none k waitTime
  | fuel+1, waitTime, k =>
    if waitTime < maxWait then
      match oracle k with
      | PollStep.exn => waitLoop upload vid oracle maxWait fuel (waitTime + 10) (k + 1)
      | PollStep.resp code st url =>
        if code = 200 then
          if st = some "completed" then
            WaitResult.mk url (s3UploadIfPresent upload vid url) (k + 1) waitTime
          else if st = some "failed" ∨ st = some "error" then
            WaitResult.mk none none (k + 1) waitTime
          else
            waitLoop upload vid oracle maxWait fuel (waitTime + 10) (k + 1)
        else
          waitLoop upload vid oracle maxWait fuel (waitTime + 10) (k + 1)
    else
      WaitResult.mk none none k waitTime

/-- `wait_for_video_completion(video_id, max_wait_seconds)` (heygen.py
lines 106-163): starts the loop with `wait_time = 0` and no polls
performed. -/
def wait_for_video_completion (upload : String → String → Option String) (vid : String)
    (oracle : Nat → PollStep) (maxWait : Nat) : WaitResult :=
  waitLoop upload vid oracle maxWait maxWait 0 0

/-- The default `max_wait_seconds = 300` of `wait_for_video_completion`,
used by `generate_video_and_wait`. -/
def default_max_wait_seconds : Nat := 300

/-- The `HeyGenResponse` pydantic model exactly as declared in
`models/response.py` lines 54-60: fields `video_id`, `status`,
`message`, `video_url`, `estimated_time`.  (The `timestamp` field, a
wall-clock default, is omitted from the embedding.)  Note the model
declares no `s3_url` field. -/
structure HeyGenResponse where
  video_id : String
  status : String
  message : String
  video_url : Option String
  estimated_time : Option Nat
deriving DecidableEq

/-- Construction of a `HeyGenResponse` by the handlers in heygen.py,
which pass the keyword arguments `video_id, status, message, video_url,
s3_url, estimated_time`.  Pydantic models ignore constructor arguments
that are not declared fields (default `extra` behaviour in both pydantic
v1 and v2), and `HeyGenResponse` declares no `s3_url` field, so the
`s3_url` argument is silently dropped. -/
def mkHeyGenResponse (video_id status message : String) (video_url : Option String)
    (s3_url : Option String) (estimated_time : Option Nat) : HeyGenResponse :=
  HeyGenResponse.mk video_id status message video_url estimated_time

/-- Python truthiness of an optional string: `if video_url:` is false
for `None` and for the empty string. -/
def pyTruthyOpt : Option String → Bool
  | none => false
  | some s => !(s == "")

/-- The tail of `generate_video_and_wait` (heygen.py lines 236-253):
after the wait returns `(video_url, s3_url)`, a truthy `video_url`
yields the "completed" response (with the computed `s3_url` passed to
the model) and anything else yields the "failed" response with the
message "Video generation failed or timed out". -/
def generate_video_and_wait_response (vid : String) (wr : WaitResult) : HeyGenResponse :=
  if pyTruthyOpt wr.video_url then
    mkHeyGenResponse vid "completed" "Video generation completed successfully"
      wr.video_url wr.s3_url (some 0)
  else
    mkHeyGenResponse vid "failed" "Video generation failed or timed out"
      none none (some 0)

/-- `generate_video_and_wait` from submission onward (heygen.py lines
234-253): run `wait_for_video_completion` with its default deadline of
300 seconds, then build the response. -/
def generate_and_wait (vid : String) (upload : String → String → Option String)
    (oracle : Nat → PollStep) : HeyGenResponse :=
  generate_video_and_wait_response vid
    (wait_for_video_completion upload vid oracle default_max_wait_seconds)

/-- The successful-poll branch of `get_video_status` (heygen.py lines
287-331): with a 200 provider response parsed into `st =
data.get("status")` and `url = data.get("video_url")`, status exactly
"completed" yields a "completed" response carrying `url` (after an
opportunistic archive attempt guarded by `if video_url:`); "failed" or
"error" yields the "failed" response; any other string yields the
"processing" response with `estimated_time = 30`. -/
def get_video_status_response (vid : String) (st : Option String) (url : Option String)
    (upload : String → String → Option String) : HeyGenResponse :=
  if st = some "completed" then
    mkHeyGenResponse vid "completed" "Video generation completed and uploaded to S3"
      url (s3UploadIfPresent upload vid url) (some 0)
  else if st = some "failed" ∨ st = some "error" then
    mkHeyGenResponse vid "failed" "Video generation failed" none none (some 0)
  else
    mkHeyGenResponse vid "processing" "Video is still being generated" none none (some 30)

/-- Whether a poll outcome makes the loop body of
`wait_for_video_completion` return (a 200 response whose status is
exactly "completed", "failed" or "error"); every other outcome falls
through to the sleep-and-retry tail of the loop. -/
def isTerminalStep : PollStep → Bool
  | PollStep.exn => false
  | PollStep.resp code st _ =>
    decide (code = 200 ∧ (st = some "completed" ∨ st = some "failed" ∨ st = some "error"))

/-- Python `str.rstrip('/')`, used when building the public URL in
`s3_service.py`. -/
def rstripSlash (s : String) : String := s.dropRightWhile (fun c => c = '/')

/-- The storage key built at s3_service.py line 43:
`f"heygen_videos/{timestamp}_{video_id}.mp4"`. -/
def s3KeyFor (timestamp vid : String) : String :=
  "heygen_videos/" ++ timestamp ++ "_" ++ vid ++ ".mp4"

/-- The public URL built at s3_service.py line 64:
`f"{settings.s3_endpoint.rstrip('/')}/{self.bucket_name}/{s3_key}"`. -/
def s3PublicUrl (endpoint bucket key : String) : String :=
  rstripSlash endpoint ++ "/" ++ bucket ++ "/" ++ key

/-- Outcome of the effectful part of
`S3Service.upload_video_from_url`: the download succeeded and the
storage write succeeded (`ok`), the download raised
`requests.RequestException` (`downloadFail`), the write raised
`ClientError` (`storageFail`), or any other exception was raised
(`unexpected`). -/
inductive ArchiveOutcome where
  | ok : ArchiveOutcome
  | downloadFail : ArchiveOutcome
  | storageFail : ArchiveOutcome
  | unexpected : ArchiveOutcome
deriving DecidableEq

/-- `S3Service.upload_video_from_url` (s3_service.py lines 29-77): on
success, returns the public URL of the object written under
`heygen_videos/{timestamp}_{video_id}.mp4`; each of the three `except`
arms logs and returns `None`. -/
def upload_video_from_url (endpoint bucket timestamp vid : String)
    (outcome : ArchiveOutcome) : Option String :=
  match outcome with
  | ArchiveOutcome.ok => some (s3PublicUrl endpoint bucket (s3KeyFor timestamp vid))
  | ArchiveOutcome.downloadFail => none
  | ArchiveOutcome.storageFail => none
  | ArchiveOutcome.unexpected => none

/-- Outcome of the provider call in `S3Service.delete_video`: the
`delete_object` call returned (`deleted`), raised `ClientError`
(`clientError`), or raised any other exception (`unexpected`). -/
inductive DeleteOutcome where
  | deleted : DeleteOutcome
  | clientError : DeleteOutcome
  | unexpected : DeleteOutcome
deriving DecidableEq

/-- `S3Service.delete_video` (s3_service.py lines 112-132): `True` when
the provider call returned, `False` from either `except` arm. -/
def delete_video : DeleteOutcome → Bool
  | DeleteOutcome.deleted => true
  | DeleteOutcome.clientError => false
  | DeleteOutcome.unexpected => false

/-- An HTTP handler outcome: a successful JSON body, or an
`HTTPException` with its status code and detail string. -/
inductive HttpResult where
  | ok (body : String) : HttpResult
  | err (statusCode : Nat) (detail : String) : HttpResult
deriving DecidableEq

/-- The `delete_s3_video` handler (heygen.py lines 363-374).  On
failure the handler raises `HTTPException(404, "Video not found or could
not be deleted")` inside the `try` block; `HTTPException` is a subclass
of `Exception`, so the blanket `except Exception as e` catches it and
re-raises `HTTPException(500, f"Failed to delete video: {str(e)}")`,
where `str` of an `HTTPException` renders as
`"{status_code}: {detail}"`.  The 404 therefore never reaches the
caller. -/
def delete_s3_video (videoKey : String) (outcome : DeleteOutcome) : HttpResult :=
  if delete_video outcome then
    HttpResult.ok ("Video " ++ videoKey ++ " deleted successfully")
  else
    HttpResult.err 500 "Failed to delete video: 404: Video not found or could not be deleted"

/-- Unfolding of one loop iteration. -/
theorem waitLoop_succ (upload : String → String → Option String) (vid : String)
    (oracle : Nat → PollStep) (maxWait fuel waitTime k : Nat) :
    waitLoop upload vid oracle maxWait (fuel + 1) waitTime k =
      if waitTime < maxWait then
        match oracle k with
        | PollStep.exn => waitLoop upload vid oracle maxWait fuel (waitTime + 10) (k + 1)
        | PollStep.resp code st url =>
          if code = 200 then
            if st = some "completed" then
              WaitResult.mk url (s3UploadIfPresent upload vid url) (k + 1) waitTime
            else if st = some "failed" ∨ st = some "error" then
              WaitResult.mk none none (k + 1) waitTime
            else
              waitLoop upload vid oracle maxWait fuel (waitTime + 10) (k + 1)
          else
            waitLoop upload vid oracle maxWait fuel (waitTime + 10) (k + 1)
      else
        WaitResult.mk none none k waitTime := rfl

/-- A non-terminal poll outcome makes the loop sleep ten seconds and
retry with the next poll. -/
theorem waitLoop_step_nonterminal (upload : String → String → Option String) (vid : String)
    (oracle : Nat → PollStep) (maxWait fuel waitTime k : Nat)
    (h1 : waitTime < maxWait) (h2 : isTerminalStep (oracle k) = false) :
    waitLoop upload vid oracle maxWait (fuel + 1) waitTime k =
      waitLoop upload vid oracle maxWait fuel (waitTime + 10) (k + 1) := by
  rw [waitLoop_succ, if_pos h1]
  cases hk : oracle k with
  | exn => rfl
  | resp code st url =>
    rw [hk] at h2
    simp only [isTerminalStep, decide_eq_false_iff_not, not_and, not_or] at h2
    by_cases hc : code = 200
    · obtain ⟨hcomp, hfail, herr⟩ := h2 hc
      simp [hc, hcomp, hfail, herr]
    · simp [hc]

/-- A poll reporting status exactly "completed" returns at once with the
reported URL and the result of the guarded upload attempt. -/
theorem waitLoop_step_completed (upload : String → String → Option String) (vid : String)
    (oracle : Nat → PollStep) (maxWait fuel waitTime k : Nat) (url : Option String)
    (h1 : waitTime < maxWait) (hk : oracle k = PollStep.resp 200 (some "completed") url) :
    waitLoop upload vid oracle maxWait (fuel + 1) waitTime k =
      WaitResult.mk url (s3UploadIfPresent upload vid url) (k + 1) waitTime := by
  rw [waitLoop_succ, if_pos h1, hk]
  simp

/-- A poll reporting status "failed" or "error" returns `(None, None)`
at once. -/
theorem waitLoop_step_failed (upload : String → String → Option String) (vid : String)
    (oracle : Nat → PollStep) (maxWait fuel waitTime k : Nat) (st : String)
    (url : Option String) (h1 : waitTime < maxWait) (hst : st = "failed" ∨ st = "error")
    (hk : oracle k = PollStep.resp 200 (some st) url) :
    waitLoop upload vid oracle maxWait (fuel + 1) waitTime k =
      WaitResult.mk none none (k + 1) waitTime := by
  rw [waitLoop_succ, if_pos h1, hk]
  cases hst with
  | inl h => subst h; simp
  | inr h => subst h; simp

/-- Skipping `j` consecutive non-terminal polls advances the loop state
by `j` polls and `10 * j` seconds of sleep. -/
theorem waitLoop_shift (upload : String → String → Option String) (vid : String)
    (oracle : Nat → PollStep) (maxWait : Nat) (j : Nat) :
    ∀ fuel waitTime k, (∀ i, i < j → isTerminalStep (oracle (k + i)) = false) →
      waitTime + 10 * j ≤ maxWait → j ≤ fuel →
      waitLoop upload vid oracle maxWait fuel waitTime k =
        waitLoop upload vid oracle maxWait (fuel - j) (waitTime + 10 * j) (k + j) := by
  induction j with
  | zero => intro fuel waitTime k _ _ _; simp
  | succ j ih =>
    intro fuel waitTime k hnt hle hfuel
    cases fuel with
    | zero => omega
    | succ f =>
      have h1 : waitTime < maxWait := by omega
      have h0 : isTerminalStep (oracle k) = false := by
        have := hnt 0 (by omega)
        simpa using this
      rw [waitLoop_step_nonterminal upload vid oracle maxWait f waitTime k h1 h0]
      have hnt2 : ∀ i, i < j → isTerminalStep (oracle (k + 1 + i)) = false := by
        intro i hi
        have := hnt (i + 1) (by omega)
        rwa [show k + (i + 1) = k + 1 + i by omega] at this
      rw [ih f (waitTime + 10) (k + 1) hnt2 (by omega) (by omega)]
      rw [show waitTime + 10 + 10 * j = waitTime + 10 * (j + 1) by ring]
      rw [show k + 1 + j = k + (j + 1) by omega]
      rw [show f - j = f + 1 - (j + 1) by omega]

/-- When no poll outcome is ever terminal and the fuel covers the
deadline, the loop exits only through the deadline check, returning
`(None, None)` with at least `maxWait` seconds slept. -/
theorem waitLoop_no_terminal (upload : String → String → Option String) (vid : String)
    (oracle : Nat → PollStep) (maxWait : Nat)
    (hnt : ∀ i, isTerminalStep (oracle i) = false) :
    ∀ fuel waitTime k, maxWait ≤ waitTime + 10 * fuel →
      (waitLoop upload vid oracle maxWait fuel waitTime k).video_url = none ∧
      (waitLoop upload vid oracle maxWait fuel waitTime k).s3_url = none ∧
      maxWait ≤ (waitLoop upload vid oracle maxWait fuel waitTime k).totalSleep := by
  intro fuel
  induction fuel with
  | zero =>
    intro waitTime k hle
    refine ⟨rfl, rfl, ?_⟩
    show maxWait ≤ waitTime
    omega
  | succ f ih =>
    intro waitTime k hle
    by_cases h1 : waitTime < maxWait
    · rw [waitLoop_step_nonterminal upload vid oracle maxWait f waitTime k h1 (hnt k)]
      exact ih (waitTime + 10) (k + 1) (by omega)
    · rw [waitLoop_succ, if_neg h1]
      exact ⟨rfl, rfl, by simpa using Nat.le_of_not_lt h1⟩

/-- Claim C1: every poll normalizes the provider status by exact match:
"completed" maps to the completed state carrying the remote asset URL,
"failed" or "error" maps to the failed state, and any other string
(unrecognized ones included) maps to still-processing.  Stated for both
places the mapping occurs: the `get_video_status` handler and one
iteration of the `wait_for_video_completion` loop. -/
theorem claim_C1 (vid : String) (st : Option String) (url : Option String)
    (upload : String → String → Option String) (oracle : Nat → PollStep)
    (maxWait fuel waitTime k : Nat)
    (hpoll : oracle k = PollStep.resp 200 st url) (hlt : waitTime < maxWait) :
    (st = some "completed" →
      (get_video_status_response vid st url upload).status = "completed" ∧
      (get_video_status_response vid st url upload).video_url = url ∧
      waitLoop upload vid oracle maxWait (fuel + 1) waitTime k =
        WaitResult.mk url (s3UploadIfPresent upload vid url) (k + 1) waitTime) ∧
    (st = some "failed" ∨ st = some "error" →
      (get_video_status_response vid st url upload).status = "failed" ∧
      (get_video_status_response vid st url upload).video_url = none ∧
      waitLoop upload vid oracle maxWait (fuel + 1) waitTime k =
        WaitResult.mk none none (k + 1) waitTime) ∧
    (st ≠ some "completed" → st ≠ some "failed" → st ≠ some "error" →
      (get_video_status_response vid st url upload).status = "processing" ∧
      waitLoop upload vid oracle maxWait (fuel + 1) waitTime k =
        waitLoop upload vid oracle maxWait fuel (waitTime + 10) (k + 1)) := by
  refine ⟨?_, ?_, ?_⟩
  · intro h
    subst h
    refine ⟨?_, ?_, ?_⟩
    · simp [get_video_status_response, mkHeyGenResponse]
    · simp [get_video_status_response, mkHeyGenResponse]
    · exact waitLoop_step_completed upload vid oracle maxWait fuel waitTime k url hlt hpoll
  · intro h
    cases h with
    | inl h =>
      subst h
      refine ⟨by simp [get_video_status_response, mkHeyGenResponse],
        by simp [get_video_status_response, mkHeyGenResponse], ?_⟩
      exact waitLoop_step_failed upload vid oracle maxWait fuel waitTime k "failed" url hlt
        (Or.inl rfl) hpoll
    | inr h =>
      subst h
      refine ⟨by simp [get_video_status_response, mkHeyGenResponse],
        by simp [get_video_status_response, mkHeyGenResponse], ?_⟩
      exact waitLoop_step_failed upload vid oracle maxWait fuel waitTime k "error" url hlt
        (Or.inr rfl) hpoll
  · intro h1 h2 h3
    constructor
    · simp [get_video_status_response, h1, h2, h3, mkHeyGenResponse]
    · apply waitLoop_step_nonterminal upload vid oracle maxWait fuel waitTime k hlt
      rw [hpoll]
      simp [isTerminalStep, h1, h2, h3]

/-- Witness for C1 at concrete inputs, one per branch of the mapping. -/
theorem claim_C1_witness :
    ((get_video_status_response "v1" (some "completed") (some "u") (fun _ _ => none)).status
        = "completed" ∧
      (get_video_status_response "v1" (some "completed") (some "u") (fun _ _ => none)).video_url
        = some "u") ∧
    (get_video_status_response "v1" (some "error") none (fun _ _ => none)).status = "failed" ∧
    (get_video_status_response "v1" (some "waiting") none (fun _ _ => none)).status
      = "processing" := by
  have h1 := claim_C1 "v1" (some "completed") (some "u") (fun _ _ => none)
    (fun _ => PollStep.resp 200 (some "completed") (some "u")) 30 2 0 0 rfl (by omega)
  have h2 := claim_C1 "v1" (some "error") none (fun _ _ => none)
    (fun _ => PollStep.resp 200 (some "error") none) 30 2 0 0 rfl (by omega)
  have h3 := claim_C1 "v1" (some "waiting") none (fun _ _ => none)
    (fun _ => PollStep.resp 200 (some "waiting") none) 30 2 0 0 rfl (by omega)
  refine ⟨⟨(h1.1 rfl).1, (h1.1 rfl).2.1⟩, (h2.2.1 (Or.inr rfl)).1, ?_⟩
  exact (h3.2.2 (by simp) (by simp) (by simp)).1

/-- Claim C2, counterexample: a run whose first poll reports the
terminal provider status "failed" and a run that exhausts the whole
300-second deadline against an always-"processing" provider produce the
very same response value from `generate_video_and_wait` — status
"failed", message "Video generation failed or timed out" — so the two
outcomes are not distinguishably labeled. -/
theorem claim_C2_counterexample :
    generate_and_wait "job1" (fun _ _ => none) (fun _ => PollStep.resp 200 (some "failed") none)
      = generate_and_wait "job1" (fun _ _ => none)
          (fun _ => PollStep.resp 200 (some "processing") none) ∧
    (generate_and_wait "job1" (fun _ _ => none)
        (fun _ => PollStep.resp 200 (some "failed") none)).message
      = "Video generation failed or timed out" := by
  exact ⟨rfl, rfl⟩

/-- Claim C2 as amended: a provider-reported terminal failure and a
deadline timeout are both reported as an unsuccessful result with status
"failed", but with one shared message "Video generation failed or timed
out" — the response does not distinguish the two outcomes. -/
theorem claim_C2_amended (vid : String) (upload : String → String → Option String)
    (st : String) (hst : st = "failed" ∨ st = "error") :
    generate_and_wait vid upload (fun _ => PollStep.resp 200 (some st) none)
      = mkHeyGenResponse vid "failed" "Video generation failed or timed out" none none (some 0) ∧
    generate_and_wait vid upload (fun _ => PollStep.resp 200 (some "processing") none)
      = mkHeyGenResponse vid "failed" "Video generation failed or timed out" none none (some 0) := by
  cases hst with
  | inl h => subst h; exact ⟨rfl, rfl⟩
  | inr h => subst h; exact ⟨rfl, rfl⟩

/-- Witness for the amended C2 at a concrete failed run. -/
theorem claim_C2_amended_witness :
    generate_and_wait "job2" (fun _ _ => none) (fun _ => PollStep.resp 200 (some "failed") none)
      = mkHeyGenResponse "job2" "failed" "Video generation failed or timed out" none none
          (some 0) := by
  exact (claim_C2_amended "job2" (fun _ _ => none) "failed" (Or.inl rfl)).1

/-- Claim C3: when a submit-and-wait run reaches provider status
"completed" with a (truthy) remote asset URL but the archive attempt
fails, the waiter returns the remote URL with no archived URL, and the
final response has status "completed" (never "failed") carrying the
remote URL; the storage failure does not fail the request. -/
theorem claim_C3 (vid : String) (upload : String → String → Option String)
    (oracle : Nat → PollStep) (n : Nat) (url : String)
    (hpre : ∀ i, i < n → isTerminalStep (oracle i) = false)
    (hcomp : oracle n = PollStep.resp 200 (some "completed") (some url))
    (hurl : url ≠ "") (hup : upload url vid = none)
    (hdl : 10 * n < default_max_wait_seconds) :
    (wait_for_video_completion upload vid oracle default_max_wait_seconds).video_url
      = some url ∧
    (wait_for_video_completion upload vid oracle default_max_wait_seconds).s3_url = none ∧
    generate_and_wait vid upload oracle
      = mkHeyGenResponse vid "completed" "Video generation completed successfully"
          (some url) none (some 0) := by
  have hwr : wait_for_video_completion upload vid oracle default_max_wait_seconds
      = WaitResult.mk (some url) none (n + 1) (10 * n) := by
    unfold wait_for_video_completion
    rw [waitLoop_shift upload vid oracle default_max_wait_seconds n default_max_wait_seconds
      0 0 (by simpa using hpre) (by omega) (by omega)]
    obtain ⟨f, hf⟩ : ∃ f, default_max_wait_seconds - n = f + 1 :=
      ⟨default_max_wait_seconds - n - 1, by omega⟩
    rw [hf]
    have hcomp2 : oracle (0 + n) = PollStep.resp 200 (some "completed") (some url) := by
      simpa using hcomp
    rw [waitLoop_step_completed upload vid oracle default_max_wait_seconds f (0 + 10 * n)
      (0 + n) (some url) (by omega) hcomp2]
    simp [s3UploadIfPresent, hurl, hup]
  refine ⟨by rw [hwr], by rw [hwr], ?_⟩
  unfold generate_and_wait
  rw [hwr]
  simp [generate_video_and_wait_response, pyTruthyOpt, hurl, mkHeyGenResponse]

/-- Witness for C3: completion on the first poll with a failing archive. -/
theorem claim_C3_witness :
    (wait_for_video_completion (fun _ _ => none) "abc123"
        (fun _ => PollStep.resp 200 (some "completed") (some "https://provider/x.mp4"))
        default_max_wait_seconds).video_url = some "https://provider/x.mp4" ∧
    (wait_for_video_completion (fun _ _ => none) "abc123"
        (fun _ => PollStep.resp 200 (some "completed") (some "https://provider/x.mp4"))
        default_max_wait_seconds).s3_url = none ∧
    generate_and_wait "abc123" (fun _ _ => none)
        (fun _ => PollStep.resp 200 (some "completed") (some "https://provider/x.mp4"))
      = mkHeyGenResponse "abc123" "completed" "Video generation completed successfully"
          (some "https://provider/x.mp4") none (some 0) := by
  exact claim_C3 "abc123" (fun _ _ => none)
    (fun _ => PollStep.resp 200 (some "completed") (some "https://provider/x.mp4")) 0
    "https://provider/x.mp4" (fun i hi => absurd hi (Nat.not_lt_zero i)) rfl
    (by simp) rfl (by norm_num [default_max_wait_seconds])

/-- Claim C4, evaluated against the code: the handler passes the
archived URL to the response constructor, but `HeyGenResponse` declares
no such field, so the response is identical whatever archived URL the
storage transfer produced; even a fully successful run whose archive
succeeded yields a response value carrying only the remote URL. -/
theorem claim_C4_code_bug :
    (∀ (vid : String) (v s3a s3b : Option String) (p t : Nat),
      generate_video_and_wait_response vid (WaitResult.mk v s3a p t)
        = generate_video_and_wait_response vid (WaitResult.mk v s3b p t)) ∧
    generate_and_wait "abc123"
        (fun _ _ => some "https://bucket/heygen_videos/20250101_000000_abc123.mp4")
        (fun _ => PollStep.resp 200 (some "completed") (some "https://provider/x.mp4"))
      = HeyGenResponse.mk "abc123" "completed" "Video generation completed successfully"
          (some "https://provider/x.mp4") (some 0) := by
  exact ⟨fun vid v s3a s3b p t => rfl, rfl⟩

/-- Claim C5: a poll sequence of `n` consecutive non-terminal
(unrecognized or "processing") outcomes followed by one terminal outcome
within the deadline makes the waiter perform exactly `n + 1` polls and
suspend for exactly `n` times the 10-second poll interval. -/
theorem claim_C5 (upload : String → String → Option String) (vid : String)
    (oracle : Nat → PollStep) (maxWait n : Nat)
    (hpre : ∀ i, i < n → isTerminalStep (oracle i) = false)
    (hterm : isTerminalStep (oracle n) = true) (hdl : 10 * n < maxWait) :
    (wait_for_video_completion upload vid oracle maxWait).polls = n + 1 ∧
    (wait_for_video_completion upload vid oracle maxWait).totalSleep = 10 * n := by
  unfold wait_for_video_completion
  rw [waitLoop_shift upload vid oracle maxWait n maxWait 0 0 (by simpa using hpre)
    (by omega) (by omega)]
  obtain ⟨f, hf⟩ : ∃ f, maxWait - n = f + 1 := ⟨maxWait - n - 1, by omega⟩
  rw [hf]
  cases hk : oracle n with
  | exn => rw [hk] at hterm; simp [isTerminalStep] at hterm
  | resp code st url =>
    rw [hk] at hterm
    simp only [isTerminalStep, decide_eq_true_eq] at hterm
    obtain ⟨hc, hst⟩ := hterm
    subst hc
    have hk2 : ∀ s, st = some s → oracle (0 + n) = PollStep.resp 200 (some s) url := by
      intro s hs
      rw [← hs]
      simpa using hk
    cases hst with
    | inl h =>
      rw [waitLoop_step_completed upload vid oracle maxWait f (0 + 10 * n) (0 + n) url
        (by omega) (hk2 "completed" h)]
      exact ⟨by simp, by simp⟩
    | inr h =>
      cases h with
      | inl h =>
        rw [waitLoop_step_failed upload vid oracle maxWait f (0 + 10 * n) (0 + n) "failed"
          url (by omega) (Or.inl rfl) (hk2 "failed" h)]
        exact ⟨by simp, by simp⟩
      | inr h =>
        rw [waitLoop_step_failed upload vid oracle maxWait f (0 + 10 * n) (0 + n) "error"
          url (by omega) (Or.inr rfl) (hk2 "error" h)]
        exact ⟨by simp, by simp⟩

/-- Witness for C5: two "processing" polls, then "completed". -/
theorem claim_C5_witness :
    (wait_for_video_completion (fun _ _ => none) "v1"
        (fun i => if i < 2 then PollStep.resp 200 (some "processing") none
          else PollStep.resp 200 (some "completed") (some "u")) 300).polls = 3 ∧
    (wait_for_video_completion (fun _ _ => none) "v1"
        (fun i => if i < 2 then PollStep.resp 200 (some "processing") none
          else PollStep.resp 200 (some "completed") (some "u")) 300).totalSleep = 20 := by
  have h := claim_C5 (fun _ _ => none) "v1"
    (fun i => if i < 2 then PollStep.resp 200 (some "processing") none
      else PollStep.resp 200 (some "completed") (some "u")) 300 2
    (fun i hi => by interval_cases i <;> rfl) rfl (by omega)
  exact ⟨h.1, h.2⟩

/-- Claim C6: if no terminal status ever arrives, the waiter exits only
through the deadline check (with at least the full deadline slept),
returning the timed-out `(None, None)` result; in particular with
deadline 30 s, interval 10 s and a provider that always reports
"processing", it performs exactly 3 polls and then stops. -/
theorem claim_C6 (upload : String → String → Option String) (vid : String)
    (oracle : Nat → PollStep) (maxWait : Nat)
    (hnt : ∀ i, isTerminalStep (oracle i) = false) :
    ((wait_for_video_completion upload vid oracle maxWait).video_url = none ∧
      (wait_for_video_completion upload vid oracle maxWait).s3_url = none ∧
      maxWait ≤ (wait_for_video_completion upload vid oracle maxWait).totalSleep) ∧
    wait_for_video_completion upload vid
        (fun _ => PollStep.resp 200 (some "processing") none) 30
      = WaitResult.mk none none 3 30 := by
  refine ⟨?_, rfl⟩
  exact waitLoop_no_terminal upload vid oracle maxWait hnt maxWait 0 0 (by omega)

/-- Witness for C6 against an always-"processing" provider. -/
theorem claim_C6_witness :
    ((wait_for_video_completion (fun _ _ => none) "v1"
        (fun _ => PollStep.resp 200 (some "processing") none) 30).video_url = none ∧
      (wait_for_video_completion (fun _ _ => none) "v1"
        (fun _ => PollStep.resp 200 (some "processing") none) 30).s3_url = none ∧
      30 ≤ (wait_for_video_completion (fun _ _ => none) "v1"
        (fun _ => PollStep.resp 200 (some "processing") none) 30).totalSleep) ∧
    wait_for_video_completion (fun _ _ => none) "v1"
        (fun _ => PollStep.resp 200 (some "processing") none) 30
      = WaitResult.mk none none 3 30 := by
  exact claim_C6 (fun _ _ => none) "v1"
    (fun _ => PollStep.resp 200 (some "processing") none) 30 (fun i => rfl)

/-- Claim C7: a transport/protocol error on a poll (an exception inside
the `try` block, an unparseable body, or a non-200 provider response)
does not terminate the wait — the loop sleeps one 10-second interval,
increments elapsed time, and retries with the next poll; and for a run
that never sees a terminal status, only the deadline ends the wait. -/
theorem claim_C7 (upload : String → String → Option String) (vid : String)
    (oracle : Nat → PollStep) (maxWait fuel waitTime k : Nat)
    (herr : oracle k = PollStep.exn ∨
      ∃ c st u, c ≠ 200 ∧ oracle k = PollStep.resp c st u)
    (hlt : waitTime < maxWait)
    (hnt : ∀ i, isTerminalStep (oracle i) = false) :
    waitLoop upload vid oracle maxWait (fuel + 1) waitTime k
      = waitLoop upload vid oracle maxWait fuel (waitTime + 10) (k + 1) ∧
    (wait_for_video_completion upload vid oracle maxWait).video_url = none ∧
    maxWait ≤ (wait_for_video_completion upload vid oracle maxWait).totalSleep := by
  have hstep : isTerminalStep (oracle k) = false := by
    cases herr with
    | inl h => rw [h]; rfl
    | inr h =>
      obtain ⟨c, st, u, hc, h⟩ := h
      rw [h]
      simp [isTerminalStep, hc]
  have hend := waitLoop_no_terminal upload vid oracle maxWait hnt maxWait 0 0 (by omega)
  exact ⟨waitLoop_step_nonterminal upload vid oracle maxWait fuel waitTime k hlt hstep,
    hend.1, hend.2.2⟩

/-- Witness for C7 against a provider whose polls always raise. -/
theorem claim_C7_witness :
    waitLoop (fun _ _ => none) "v1" (fun _ => PollStep.exn) 20 6 0 0
      = waitLoop (fun _ _ => none) "v1" (fun _ => PollStep.exn) 20 5 10 1 ∧
    (wait_for_video_completion (fun _ _ => none) "v1"
      (fun _ => PollStep.exn) 20).video_url = none ∧
    20 ≤ (wait_for_video_completion (fun _ _ => none) "v1"
      (fun _ => PollStep.exn) 20).totalSleep := by
  exact claim_C7 (fun _ _ => none) "v1" (fun _ => PollStep.exn) 20 5 0 0
    (Or.inl rfl) (by omega) (fun i => rfl)

/-- Claim C8: the archive operation, on success, returns the public URL
joined from the (slash-stripped) storage endpoint, the bucket name and
the key `heygen_videos/{timestamp}_{video_id}.mp4` — a key that embeds
the source job id — and each of the three failure modes (download
failure, storage-write failure, unexpected error) returns `None`, all
reported identically. -/
theorem claim_C8 (endpoint bucket ts vid : String) :
    upload_video_from_url endpoint bucket ts vid ArchiveOutcome.ok
      = some (rstripSlash endpoint ++ "/" ++ bucket ++ "/"
          ++ ("heygen_videos/" ++ ts ++ "_" ++ vid ++ ".mp4")) ∧
    (∃ pre post, s3KeyFor ts vid = pre ++ vid ++ post) ∧
    upload_video_from_url endpoint bucket ts vid ArchiveOutcome.downloadFail = none ∧
    upload_video_from_url endpoint bucket ts vid ArchiveOutcome.storageFail = none ∧
    upload_video_from_url endpoint bucket ts vid ArchiveOutcome.unexpected = none ∧
    upload_video_from_url endpoint bucket ts vid ArchiveOutcome.downloadFail
      = upload_video_from_url endpoint bucket ts vid ArchiveOutcome.storageFail := by
  exact ⟨rfl, ⟨"heygen_videos/" ++ ts ++ "_", ".mp4", rfl⟩, rfl, rfl, rfl, rfl⟩

/-- Claim C9, evaluated against the code: `delete_video` is `True` only
on a confirmed provider deletion, but the DELETE handler never responds
404 — the `HTTPException(404)` raised inside its `try` block is caught
by the blanket `except Exception` and replaced by a 500 whose detail
wraps the stringified 404. -/
theorem claim_C9_code_bug :
    delete_video DeleteOutcome.deleted = true ∧
    delete_video DeleteOutcome.clientError = false ∧
    delete_video DeleteOutcome.unexpected = false ∧
    delete_s3_video "heygen_videos/20250101_000000_abc123.mp4" DeleteOutcome.clientError
      = HttpResult.err 500
          "Failed to delete video: 404: Video not found or could not be deleted" := by
  exact ⟨rfl, rfl, rfl, rfl⟩

/-- Claim C10: a first poll reporting "completed" with no video URL
makes the waiter return `(None, None)` after that single poll — no
archive attempt, whatever the upload would return — and the
submit-and-wait response is the same status-"failed" response produced
for provider failures and timeouts. -/
theorem claim_C10 (vid : String) (upload : String → String → Option String)
    (oracle : Nat → PollStep) (maxWait : Nat)
    (h0 : oracle 0 = PollStep.resp 200 (some "completed") none) (hpos : 0 < maxWait) :
    wait_for_video_completion upload vid oracle maxWait = WaitResult.mk none none 1 0 ∧
    generate_and_wait vid upload oracle
      = mkHeyGenResponse vid "failed" "Video generation failed or timed out"
          none none (some 0) := by
  constructor
  · unfold wait_for_video_completion
    obtain ⟨f, hf⟩ : ∃ f, maxWait = f + 1 := ⟨maxWait - 1, by omega⟩
    rw [hf]
    rw [waitLoop_step_completed upload vid oracle (f + 1) f 0 0 none (by omega) h0]
    rfl
  · have h2 : wait_for_video_completion upload vid oracle 300 = WaitResult.mk none none 1 0 := by
      show waitLoop upload vid oracle 300 (299 + 1) 0 0 = WaitResult.mk none none 1 0
      rw [waitLoop_step_completed upload vid oracle 300 299 0 0 none (by omega) h0]
      rfl
    unfold generate_and_wait
    rw [show default_max_wait_seconds = 300 from rfl, h2]
    rfl

/-- Witness for C10 with an upload that would always succeed. -/
theorem claim_C10_witness :
    wait_for_video_completion (fun _ _ => some "https://bucket/archived.mp4") "v1"
        (fun _ => PollStep.resp 200 (some "completed") none) 30
      = WaitResult.mk none none 1 0 ∧
    generate_and_wait "v1" (fun _ _ => some "https://bucket/archived.mp4")
        (fun _ => PollStep.resp 200 (some "completed") none)
      = mkHeyGenResponse "v1" "failed" "Video generation failed or timed out"
          none none (some 0) := by
  exact claim_C10 "v1" (fun _ _ => some "https://bucket/archived.mp4")
    (fun _ => PollStep.resp 200 (some "completed") none) 30 rfl (by omega)
